import Mathlib

/-!
Shallow embedding of the NFO asset verification client (SiteSearch page and
the AssetDetail drawer), faithful to the TypeScript source.  Records
(`Record<string, T>`) are modelled as association lists with first-match
lookup; backend tables are lists of rows; backend queries are pure
functions of the table contents; fallible network calls are parametrised
by their outcome.
-/

/-- One row of one of the five category asset tables (`AssetRow` in
`SiteSearch.tsx`).  Optional text columns are `Option String`; a `none`
models a SQL NULL / absent field. -/
structure AssetRow where
  id : String
  site_id : String
  date_text : Option String := none
  equipment_type : Option String := none
  product_name : Option String := none
  product_number : Option String := none
  serial : Option String := none
  tag : Option String := none
  status : Option String := none
  remarks : Option String := none
deriving DecidableEq, Repr

/-- A row of the `asset_photos` metadata table (`AssetPhoto` in
`SiteSearch.tsx`). -/
structure AssetPhoto where
  id : String
  asset_id : String
  asset_table : String
  photo_type : String
  storage_path : String
  url : Option String := none
  taken_at : Option String := none
  taken_by : Option String := none
  created_at : Option String := none
  signedUrl : String := ""
deriving DecidableEq, Repr

/-- `EditableRow` from `SiteSearch.tsx`: the canonical row plus the shadow
draft copy of each editable field and the transient flags. -/
structure EditableRow where
  row : AssetRow
  _editing : Bool := false
  _saving : Bool := false
  _equipment_type : String := ""
  _product_name : String := ""
  _product_number : String := ""
  _serial : String := ""
  _tag : String := ""
  _status : String := ""
  _remarks : String := ""
deriving DecidableEq, Repr

/-- A row of the `product_catalog` table. -/
structure CatalogRow where
  product_name : Option String := none
  product_number : Option String := none
  category : Option String := none
  equipment_type : Option String := none
deriving DecidableEq, Repr

/-- The five category tabs, in source order (`TABS`). -/
def TABS : List String := ["Enclosure", "RAN-Active", "RAN-Passive", "MW-Active", "MW-Passive"]

/-- `TAB_TABLE_MAP`: tab name to backing table name. -/
def TAB_TABLE_MAP : String → String
  | "Enclosure" => "enclosure_assets"
  | "RAN-Active" => "ran_active_assets"
  | "RAN-Passive" => "ran_passive_assets"
  | "MW-Active" => "mw_active_assets"
  | "MW-Passive" => "mw_passive_assets"
  | _ => ""

/-- First-match lookup in an association list (the semantics of reading a
key from a JS object). -/
def lookupStr {α : Type} : List (String × α) → String → Option α
  | [], _ => none
  | (k, v) :: rest, key => if k = key then some v else lookupStr rest key

/-- Setting a key in a JS object (`{ ...prev, [k]: v }`): replaces the
binding seen by lookup, appends when the key is absent. -/
def setEntry {α : Type} : List (String × α) → String → α → List (String × α)
  | [], key, v => [(key, v)]
  | (k, w) :: rest, key, v =>
      if k = key then (key, v) :: rest else (k, w) :: setEntry rest key v

theorem lookupStr_setEntry_self {α : Type} (m : List (String × α)) (k : String) (v : α) :
    lookupStr (setEntry m k v) k = some v := by
  induction m with
  | nil => simp [setEntry, lookupStr]
  | cons p rest ih =>
      by_cases h : p.1 = k
      · simp [setEntry, h, lookupStr]
      · simp [setEntry, h, lookupStr, ih]

theorem lookupStr_setEntry_ne {α : Type} (m : List (String × α)) (k k' : String) (v : α)
    (h : k' ≠ k) : lookupStr (setEntry m k v) k' = lookupStr m k' := by
  have hk : ¬ k = k' := fun hh => h hh.symm
  have hk' : ¬ k' = k := h
  induction m with
  | nil => simp [setEntry, lookupStr, hk]
  | cons p rest ih =>
      by_cases hp : p.1 = k
      · subst hp
        simp [setEntry, lookupStr, hk]
      · by_cases hp' : p.1 = k'
        · simp [setEntry, hp, lookupStr, hp', hk']
        · simp [setEntry, hp, lookupStr, hp', ih]

/-- JS `String.prototype.trim`: strip leading and trailing whitespace
(modelled over the character list so that it evaluates in the kernel). -/
def jsTrim (s : String) : String :=
  String.mk (((s.data.dropWhile Char.isWhitespace).reverse.dropWhile Char.isWhitespace).reverse)

/-- Sort key for `.order('date_text', { ascending: false })`: the text of
the date column, NULL read as the empty string. -/
def dateKey (r : AssetRow) : String := r.date_text.getD ""

/-- `a` comes no later than `b` in descending date order. -/
def dateGe (a b : AssetRow) : Prop := dateKey b ≤ dateKey a

instance : DecidableRel dateGe := fun a b =>
  inferInstanceAs (Decidable (dateKey b ≤ dateKey a))

instance : IsTotal AssetRow dateGe :=
  ⟨fun a b => (le_total (dateKey b) (dateKey a)).imp id id⟩

instance : IsTrans AssetRow dateGe :=
  ⟨fun _ _ _ hab hbc => le_trans hbc hab⟩

/-- The backend read issued per table by the search and refresh handlers:
`select * ... eq('site_id', site) ... order('date_text', ascending: false)`. -/
def queryTable (rows : List AssetRow) (site : String) : List AssetRow :=
  List.insertionSort dateGe (rows.filter (fun r => r.site_id == site))

/-- The local component state of `SiteSearch` (the `useState` hooks that
the claims are about). -/
structure SiteSearchState where
  searchQuery : String := ""
  siteId : String := ""
  tabData : List (String × List EditableRow) := []
  tabCounts : List (String × Nat) := []
  photos : List (String × List AssetPhoto) := []
  hasSearched : Bool := false
  loading : Bool := false
  error : Option String := none
  equipmentTypes : List (String × List String) := []
  productNames : List (String × List String) := []
  tagStatuses : List String := []
  loadingDropdowns : Option String := none
deriving DecidableEq, Repr

/-- Rows fetched from a table are wrapped with their draft copies
(`data.map(row => ({ ...row, _equipment_type: row.equipment_type || '', ... }))`). -/
def toEditable (r : AssetRow) : EditableRow :=
  { row := r
    _editing := false
    _saving := false
    _equipment_type := r.equipment_type.getD ""
    _product_name := r.product_name.getD ""
    _product_number := r.product_number.getD ""
    _serial := r.serial.getD ""
    _tag := r.tag.getD ""
    _status := r.status.getD ""
    _remarks := r.remarks.getD "" }

/-- Rows currently displayed in a tab (`tabData[tab] || []`). -/
def getTabRows (s : SiteSearchState) (tab : String) : List EditableRow :=
  (lookupStr s.tabData tab).getD []

/-- `{ ...prev, [tab]: prev[tab]?.map(f) || [] }`. -/
def updateTabRows (td : List (String × List EditableRow)) (tab : String)
    (f : EditableRow → EditableRow) : List (String × List EditableRow) :=
  setEntry td tab (((lookupStr td tab).getD []).map f)

/-- Network calls issued by a handler, used to state "no network call"
claims. -/
inductive NetCall where
  | selectAssets (table : String) (site : String)
  | selectPhotos (tables : List String) (assetIds : List String)
deriving DecidableEq, Repr

/-- `[...new Set(xs)]`: deduplicate keeping first occurrences in order. -/
def dedup (xs : List String) : List String :=
  xs.foldl (fun acc x => if x ∈ acc then acc else acc ++ [x]) []

/-- Append a photo to its group in the photo map (the `photoMap` fold in
`loadPhotosForAssets`). -/
def addToMap (m : List (String × List AssetPhoto)) (key : String) (p : AssetPhoto) :
    List (String × List AssetPhoto) :=
  match m with
  | [] => [(key, [p])]
  | (k, ps) :: rest =>
      if k = key then (k, ps ++ [p]) :: rest else (k, ps) :: addToMap rest key p

/-- Group fetched photos by `asset_table:asset_id`. -/
def groupPhotos (ps : List AssetPhoto) : List (String × List AssetPhoto) :=
  ps.foldl (fun m p => addToMap m (p.asset_table ++ ":" ++ p.asset_id) p) []

/-- `loadPhotosForAssets`: with no assets the photo map is cleared;
otherwise all photos of the collected tables and asset ids are fetched,
signed (a failed signing degrades to an empty URL) and grouped.  `sign` is
the signing backend (`none` models a signing error). -/
def loadPhotosForAssets (photoDb : List AssetPhoto) (sign : String → Option String)
    (s : SiteSearchState) (assets : List (String × String)) :
    SiteSearchState × List NetCall :=
  if assets = [] then ({ s with photos := [] }, [])
  else
    let tables := dedup (assets.map Prod.fst)
    let ids := assets.map Prod.snd
    let data := photoDb.filter (fun p => p.asset_table ∈ tables && p.asset_id ∈ ids)
    let withUrls := data.map (fun p => { p with signedUrl := (sign p.storage_path).getD "" })
    ({ s with photos := groupPhotos withUrls }, [NetCall.selectPhotos tables ids])

/-- `handleSearch`: an empty trimmed query clears everything and issues no
calls; otherwise all five tables are fetched for the trimmed site id, the
tab data and counts are rebuilt, and photos are loaded for every fetched
asset.  `db` maps a table name to its rows (success path of the backend). -/
def handleSearch (db : String → List AssetRow) (photoDb : List AssetPhoto)
    (sign : String → Option String) (s : SiteSearchState) :
    SiteSearchState × List NetCall :=
  let query := jsTrim s.searchQuery
  if query = "" then
    ({ s with tabData := [], tabCounts := [], photos := [],
              hasSearched := false, siteId := "" }, [])
  else
    let results := TABS.map (fun tab => (tab, queryTable (db (TAB_TABLE_MAP tab)) query))
    let s1 : SiteSearchState :=
      { s with loading := false, error := none, hasSearched := true, siteId := query,
               tabData := results.map (fun p => (p.1, p.2.map toEditable)),
               tabCounts := results.map (fun p => (p.1, p.2.length)) }
    let allAssets : List (String × String) :=
      results.flatMap (fun p => p.2.map (fun r => (TAB_TABLE_MAP p.1, r.id)))
    let loaded := loadPhotosForAssets photoDb sign s1 allAssets
    (loaded.1, TABS.map (fun tab => NetCall.selectAssets (TAB_TABLE_MAP tab) query) ++ loaded.2)

/-- `refreshTabData`: re-fetch one tab's rows for the given site and
replace that tab's data and count. -/
def refreshTabData (db : String → List AssetRow) (s : SiteSearchState)
    (tab : String) (site : String) : SiteSearchState :=
  let rows := queryTable (db (TAB_TABLE_MAP tab)) site
  { s with tabData := setEntry s.tabData tab (rows.map toEditable),
           tabCounts := setEntry s.tabCounts tab rows.length }

/-- One tab's realtime listener: the channel delivers the callback only
when the event's table matches and the event row passes the
`site_id=eq.{subSite}` filter; the callback runs `refreshTabData`. -/
def assetEventStep (db : String → List AssetRow) (subSite table rowSite : String)
    (st : SiteSearchState) (tab : String) : SiteSearchState :=
  if TAB_TABLE_MAP tab = table ∧ rowSite = subSite then refreshTabData db st tab subSite
  else st

/-- Processing one inbound asset-table change notification against the
five per-table listeners registered by `setupRealtimeSubscriptions`.
`subSite` is the site id captured when the subscription was opened;
`rowSite` is the site id of the changed row. -/
def processAssetEvent (db : String → List AssetRow) (s : SiteSearchState)
    (subSite table rowSite : String) : SiteSearchState :=
  TABS.foldl (assetEventStep db subSite table rowSite) s

/-- The seven editable fields of a row. -/
inductive EField where
  | equipmentType | productName | productNumber | serial | tag | status | remarks
deriving DecidableEq, Repr

/-- Read a canonical column of a row. -/
def fieldGet (r : AssetRow) : EField → Option String
  | .equipmentType => r.equipment_type
  | .productName => r.product_name
  | .productNumber => r.product_number
  | .serial => r.serial
  | .tag => r.tag
  | .status => r.status
  | .remarks => r.remarks

/-- Read a draft field of an editable row. -/
def draftGet (er : EditableRow) : EField → String
  | .equipmentType => er._equipment_type
  | .productName => er._product_name
  | .productNumber => er._product_number
  | .serial => er._serial
  | .tag => er._tag
  | .status => er._status
  | .remarks => er._remarks

/-- `handleFieldChange` at row level: write one draft field and set the
edited flag. -/
def draftSet (er : EditableRow) (f : EField) (v : String) : EditableRow :=
  match f with
  | .equipmentType => { er with _equipment_type := v, _editing := true }
  | .productName => { er with _product_name := v, _editing := true }
  | .productNumber => { er with _product_number := v, _editing := true }
  | .serial => { er with _serial := v, _editing := true }
  | .tag => { er with _tag := v, _editing := true }
  | .status => { er with _status := v, _editing := true }
  | .remarks => { er with _remarks := v, _editing := true }

/-- An editing session: a sequence of field edits applied in order. -/
def applyEdits (er : EditableRow) (edits : List (EField × String)) : EditableRow :=
  edits.foldl (fun e p => draftSet e p.1 p.2) er

/-- The body of the one `update(...)` call issued by `handleSaveRow`:
all seven draft fields. -/
structure UpdatePayload where
  equipment_type : String
  product_name : String
  product_number : String
  serial : String
  tag : String
  status : String
  remarks : String
deriving DecidableEq, Repr

/-- The payload `handleSaveRow` builds from the clicked row's drafts. -/
def payloadOf (row : EditableRow) : UpdatePayload :=
  { equipment_type := row._equipment_type
    product_name := row._product_name
    product_number := row._product_number
    serial := row._serial
    tag := row._tag
    status := row._status
    remarks := row._remarks }

/-- Read one component of the payload. -/
def payloadGet (u : UpdatePayload) : EField → String
  | .equipmentType => u.equipment_type
  | .productName => u.product_name
  | .productNumber => u.product_number
  | .serial => u.serial
  | .tag => u.tag
  | .status => u.status
  | .remarks => u.remarks

/-- The effect of the update call on the persisted row: every one of the
seven columns is written with the payload's string. -/
def applyUpdate (r : AssetRow) (u : UpdatePayload) : AssetRow :=
  { r with equipment_type := some u.equipment_type
           product_name := some u.product_name
           product_number := some u.product_number
           serial := some u.serial
           tag := some u.tag
           status := some u.status
           remarks := some u.remarks }

/-- The success branch of `handleSaveRow` for the matching row: canonical
fields take the clicked row's draft values; the edited and saving flags
are cleared. -/
def promoteRow (r : EditableRow) (clicked : EditableRow) : EditableRow :=
  { r with row := applyUpdate r.row (payloadOf clicked)
           _editing := false
           _saving := false }

/-- `handleSaveRow`: mark the row as saving, issue one update; on success
(`updateErr = none`) promote the drafts into the canonical row and clear
the flags; on failure surface the message and only reset the saving flag. -/
def handleSaveRow (updateErr : Option String) (s : SiteSearchState)
    (tab : String) (row : EditableRow) : SiteSearchState :=
  let s1 : SiteSearchState :=
    { s with tabData := (updateTabRows s.tabData tab
        (fun r => if r.row.id = row.row.id then { r with _saving := true } else r)) }
  match updateErr with
  | none =>
      { s1 with tabData := (updateTabRows s1.tabData tab
          (fun r => if r.row.id = row.row.id then promoteRow r row else r)) }
  | some msg =>
      { s1 with error := some ("Failed to save: " ++ msg),
                tabData := (updateTabRows s1.tabData tab
          (fun r => if r.row.id = row.row.id then { r with _saving := false } else r)) }

/-- The synchronous part of `handleEquipmentTypeChange` (everything that
runs before the `await` on the product-name fetch): set the dropdown
loading marker, write the new equipment type and clear the two dependent
draft fields on the matching row. -/
def handleEquipmentTypeChangeSync (s : SiteSearchState)
    (tab rowId value : String) : SiteSearchState :=
  { s with loadingDropdowns := some (rowId ++ "-product"),
           tabData := (updateTabRows s.tabData tab
      (fun r => if r.row.id = rowId then
          { r with _equipment_type := value, _product_name := "",
                   _product_number := "", _editing := true }
        else r)) }

/-- `fetchProductNames` cache behaviour: a hit leaves the cache alone, a
miss stores the fetched list under `category:equipmentType`. -/
def fetchProductNamesApply (s : SiteSearchState) (category equipmentType : String)
    (names : List String) : SiteSearchState :=
  let cacheKey := category ++ ":" ++ equipmentType
  if (lookupStr s.productNames cacheKey).isSome then s
  else { s with productNames := setEntry s.productNames cacheKey names }

/-- The whole of `handleEquipmentTypeChange`: the synchronous clearing
step, then (for a non-empty value) the awaited product-name fetch, then
the loading marker is reset. -/
def handleEquipmentTypeChange (names : List String) (s : SiteSearchState)
    (tab rowId value : String) : SiteSearchState :=
  let s1 := handleEquipmentTypeChangeSync s tab rowId value
  let s2 := if value = "" then s1 else fetchProductNamesApply s1 tab value names
  { s2 with loadingDropdowns := none }

/-- The `product_catalog` read of `fetchProductNumber`:
`eq('product_name', ...)` always; `eq('category', ...)` and
`eq('equipment_type', ...)` only when the argument is truthy (non-empty);
`limit(1)`. -/
def catalogQuery (catalog : List CatalogRow) (productName category equipmentType : String) :
    List CatalogRow :=
  (catalog.filter (fun c =>
      c.product_name == some productName
      && (category == "" || c.category == some category)
      && (equipmentType == "" || c.equipment_type == some equipmentType))).take 1

/-- `data?.[0]?.product_number || null`: the first fetched row's product
number, with a missing row, a NULL column or an empty string all giving
`null`. -/
def firstNumber (rows : List CatalogRow) : Option String :=
  match rows.head? with
  | none => none
  | some c =>
      match c.product_number with
      | none => none
      | some s => if s = "" then none else some s

/-- `fetchProductNumber`: the filtered catalog query first; when it errors
(`filteredErr`), the unfiltered fallback query; when that also errors,
`null`.  No branch writes a user-visible error. -/
def fetchProductNumber (catalog : List CatalogRow) (filteredErr fallbackErr : Bool)
    (productName category equipmentType : String) : Option String :=
  if filteredErr then
    if fallbackErr then none
    else firstNumber (catalogQuery catalog productName "" "")
  else firstNumber (catalogQuery catalog productName category equipmentType)

/-- `handleProductNameChange`: write the product-name draft, then (for a
non-empty value) await the catalog lookup and, only when it yields a
number, write the product-number draft. -/
def handleProductNameChange (catalog : List CatalogRow) (filteredErr fallbackErr : Bool)
    (s : SiteSearchState) (tab rowId value equipmentType : String) : SiteSearchState :=
  let s1 : SiteSearchState :=
    { s with loadingDropdowns := some (rowId ++ "-product_number"),
             tabData := (updateTabRows s.tabData tab
        (fun r => if r.row.id = rowId then
            { r with _product_name := value, _editing := true } else r)) }
  let s2 :=
    if value = "" then s1
    else
      match fetchProductNumber catalog filteredErr fallbackErr value tab equipmentType with
      | some pn =>
          { s1 with tabData := (updateTabRows s1.tabData tab
              (fun r => if r.row.id = rowId then { r with _product_number := pn } else r)) }
      | none => s1
  { s2 with loadingDropdowns := none }

/-- The deterministic storage path used by the SiteSearch grid upload. -/
def photoStoragePath (siteId table rowId photoType fileName : String) : String :=
  siteId ++ "/" ++ table ++ "/" ++ rowId ++ "/" ++ photoType ++ "/" ++ fileName

/-- Does a metadata record belong to the given (asset, photo type) pair? -/
def photoMatches (assetId photoType : String) (p : AssetPhoto) : Bool :=
  p.asset_id == assetId && p.photo_type == photoType

/-- Number of metadata records for an (asset, photo type) pair. -/
def countPhotos (db : List AssetPhoto) (assetId photoType : String) : Nat :=
  db.countP (photoMatches assetId photoType)

/-- The backend effects of `handlePhotoUpload` (SiteSearch grid): the
storage object at the deterministic path is upserted, then a fresh
metadata record is inserted (never updated in place). -/
def handlePhotoUpload (storage : List (String × String)) (photoDb : List AssetPhoto)
    (newId siteId tab rowId photoType fileName content takenAt : String)
    (userId : Option String) : List (String × String) × List AssetPhoto :=
  let table := TAB_TABLE_MAP tab
  let path := photoStoragePath siteId table rowId photoType fileName
  (setEntry storage path content,
   photoDb ++ [{ id := newId, asset_id := rowId, asset_table := table,
                 photo_type := photoType, storage_path := path,
                 taken_at := some takenAt, taken_by := userId }])

/-- `file.name.split('.').pop()`. -/
def fileExt (name : String) : String := ((name.splitOn ".").getLast?).getD ""

/-- The deterministic storage path used by the AssetDetail drawer upload. -/
def uploadPhotoPath (siteId assetId photoType ext : String) : String :=
  siteId ++ "/" ++ assetId ++ "/" ++ photoType ++ "." ++ ext

/-- The `upsert(..., { onConflict: 'asset_id,photo_type' })` issued by the
AssetDetail drawer: an existing record for the pair is updated in place,
otherwise a record is inserted. -/
def upsertPhoto (db : List AssetPhoto) (newId assetId photoType path publicUrl : String) :
    List AssetPhoto :=
  if db.any (photoMatches assetId photoType) then
    db.map (fun p => if photoMatches assetId photoType p then
        { p with storage_path := path, url := some publicUrl } else p)
  else
    db ++ [{ id := newId, asset_id := assetId, asset_table := "",
             photo_type := photoType, storage_path := path, url := some publicUrl }]

/-- The backend effects of the AssetDetail drawer's `uploadPhoto`: storage
upsert at its deterministic path, then the metadata upsert. -/
def uploadPhoto (storage : List (String × String)) (db : List AssetPhoto)
    (newId siteId assetId photoType fileName content publicUrl : String) :
    List (String × String) × List AssetPhoto :=
  let path := uploadPhotoPath siteId assetId photoType (fileExt fileName)
  (setEntry storage path content, upsertPhoto db newId assetId photoType path publicUrl)

/-- The add-new-row form state (`newRow`). -/
structure NewRow where
  equipment_type : String := ""
  product_name : String := ""
  product_number : String := ""
  serial : String := ""
  tag : String := ""
  status : String := ""
  remarks : String := ""
deriving DecidableEq, Repr

/-- The body of the insert issued by `handleAddNewRow`. -/
structure InsertPayload where
  site_id : String
  date_text : String
  category : String
  equipment_type : String
  product_name : String
  product_number : Option String
  serial : String
  tag : String
  status : String
  remarks : Option String
deriving DecidableEq, Repr

/-- `handleAddNewRow`: the four required fields are validated in source
order, each failure setting an error and issuing nothing; a passing form
issues one insert with blank serial/tag persisted as the literal "NA" and
blank product number/remarks persisted as NULL. -/
def handleAddNewRow (siteId activeTab dateText : String) (nr : NewRow) :
    Except String InsertPayload :=
  if siteId = "" then .error "Site ID is required. Please search for a site first."
  else if nr.equipment_type = "" then .error "Equipment Type is required."
  else if nr.product_name = "" then .error "Product Name is required."
  else if nr.status = "" then .error "Tag & Serial Status is required."
  else .ok
    { site_id := siteId
      date_text := dateText
      category := activeTab
      equipment_type := nr.equipment_type
      product_name := nr.product_name
      product_number := if nr.product_number = "" then none else some nr.product_number
      serial := if nr.serial = "" then "NA" else nr.serial
      tag := if nr.tag = "" then "NA" else nr.tag
      status := nr.status
      remarks := if nr.remarks = "" then none else some nr.remarks }

/-- The two kinds of realtime channels the page opens. -/
inductive ChannelKind where
  | asset | photo
deriving DecidableEq, Repr

/-- A realtime channel handle. -/
structure Channel where
  cid : Nat
  kind : ChannelKind
deriving DecidableEq, Repr

/-- The realtime side of the page: the set of channels currently
subscribed on the client plus the two refs and a fresh-id counter. -/
structure RTState where
  active : List Channel
  channelRef : Option Channel
  photoChannelRef : Option Channel
  nextId : Nat
deriving DecidableEq, Repr

/-- `supabase.removeChannel(c)`. -/
def removeChannel (l : List Channel) (c : Channel) : List Channel :=
  l.filter (fun x => x.cid ≠ c.cid)

/-- Remove the channel a ref points to, when it points anywhere. -/
def removeRef (l : List Channel) (ref : Option Channel) : List Channel :=
  match ref with
  | some c => removeChannel l c
  | none => l

/-- `setupRealtimeSubscriptions`: tear down the channels both refs point
to, then open one fresh asset channel and one fresh photo channel and
store them in the refs. -/
def setupSubscriptions (s : RTState) : RTState :=
  let cleaned := removeRef (removeRef s.active s.channelRef) s.photoChannelRef
  let a : Channel := ⟨s.nextId, ChannelKind.asset⟩
  let p : Channel := ⟨s.nextId + 1, ChannelKind.photo⟩
  { active := cleaned ++ [a, p]
    channelRef := some a
    photoChannelRef := some p
    nextId := s.nextId + 2 }

/-- The unmount cleanup effect: both referenced channels are removed (the
refs themselves are left as the source leaves them). -/
def unmountCleanup (s : RTState) : RTState :=
  { s with active := removeRef (removeRef s.active s.channelRef) s.photoChannelRef }

/-- The channel-affecting operations the page can perform. -/
inductive RTOp where
  | search | unmount
deriving DecidableEq, Repr

/-- The realtime state before any search. -/
def rtInit : RTState := ⟨[], none, none, 0⟩

/-- Apply one channel-affecting operation. -/
def rtStep (s : RTState) : RTOp → RTState
  | RTOp.search => setupSubscriptions s
  | RTOp.unmount => unmountCleanup s

/-- Run a sequence of operations from the initial realtime state. -/
def runOps (ops : List RTOp) : RTState :=
  ops.foldl rtStep rtInit

/-! ## Claim C6 -/

/-- Claim C6: searching with an empty (or whitespace-only, after trimming)
query clears all tab data, tab counts and photos, resets the searched
state and stored site id, and issues no network calls. -/
theorem claim_C6 (db : String → List AssetRow) (photoDb : List AssetPhoto)
    (sign : String → Option String) (s : SiteSearchState)
    (h : jsTrim s.searchQuery = "") :
    handleSearch db photoDb sign s =
      ({ s with tabData := [], tabCounts := [], photos := [],
                hasSearched := false, siteId := "" }, []) := by
  simp [handleSearch, h]

/-- A populated state with a whitespace-only query, for the C6 witness. -/
def s6W : SiteSearchState :=
  { searchQuery := "   ", hasSearched := true, siteId := "S1",
    tabCounts := [("Enclosure", 2)] }

theorem claim_C6_witness :
    jsTrim s6W.searchQuery = "" ∧
    handleSearch (fun _ => []) [] (fun _ => none) s6W =
      ({ s6W with tabData := [], tabCounts := [], photos := [],
                  hasSearched := false, siteId := "" }, []) :=
  ⟨by decide, claim_C6 (fun _ => []) [] (fun _ => none) s6W (by decide)⟩

/-! ## Claim C10 -/

/-- Claim C10: `handleAddNewRow` issues an insert iff the site id,
equipment type, product name and status are all non-empty; otherwise it
produces an error message and no call; when it inserts, a blank serial or
tag is persisted as the literal "NA" and a blank product number or
remarks as NULL (and the non-blank values verbatim). -/
theorem claim_C10 (siteId activeTab dateText : String) (nr : NewRow) :
    ((∃ p, handleAddNewRow siteId activeTab dateText nr = Except.ok p) ↔
        (siteId ≠ "" ∧ nr.equipment_type ≠ "" ∧ nr.product_name ≠ "" ∧ nr.status ≠ ""))
    ∧ ((siteId = "" ∨ nr.equipment_type = "" ∨ nr.product_name = "" ∨ nr.status = "") →
        ∃ msg, handleAddNewRow siteId activeTab dateText nr = Except.error msg)
    ∧ (∀ p, handleAddNewRow siteId activeTab dateText nr = Except.ok p →
        (nr.serial = "" → p.serial = "NA") ∧ (nr.serial ≠ "" → p.serial = nr.serial)
        ∧ (nr.tag = "" → p.tag = "NA") ∧ (nr.tag ≠ "" → p.tag = nr.tag)
        ∧ (nr.product_number = "" → p.product_number = none)
        ∧ (nr.product_number ≠ "" → p.product_number = some nr.product_number)
        ∧ (nr.remarks = "" → p.remarks = none)
        ∧ (nr.remarks ≠ "" → p.remarks = some nr.remarks)
        ∧ p.site_id = siteId ∧ p.category = activeTab ∧ p.date_text = dateText
        ∧ p.equipment_type = nr.equipment_type ∧ p.product_name = nr.product_name
        ∧ p.status = nr.status) := by
  by_cases h1 : siteId = "" <;> by_cases h2 : nr.equipment_type = "" <;>
    by_cases h3 : nr.product_name = "" <;> by_cases h4 : nr.status = "" <;>
      (simp [handleAddNewRow, h1, h2, h3, h4]; try tauto)

/-- The new-row form used by the C10 witness. -/
def nrW : NewRow :=
  { equipment_type := "ET1", product_name := "PN1", product_number := "",
    serial := "", tag := "T9", status := "OK", remarks := "" }

/-- The insert payload `handleAddNewRow` produces for `nrW`. -/
def payloadW : InsertPayload :=
  { site_id := "S1", date_text := "1-Jul-25", category := "Enclosure",
    equipment_type := "ET1", product_name := "PN1", product_number := none,
    serial := "NA", tag := "T9", status := "OK", remarks := none }

theorem claim_C10_witness : payloadW.serial = "NA" :=
  ((claim_C10 "S1" "Enclosure" "1-Jul-25" nrW).2.2 payloadW (by rfl)).1 rfl

/-! ## Claim C8 -/

theorem mem_removeRef {l : List Channel} {ref : Option Channel} {x : Channel} :
    x ∈ removeRef l ref ↔ x ∈ l ∧ ∀ a, ref = some a → x.cid ≠ a.cid := by
  cases ref with
  | none => simp [removeRef]
  | some c => simp [removeRef, removeChannel, List.mem_filter]

/-- The invariant of the realtime wiring: every active asset channel is
the one the asset ref points to, every active photo channel is the one
the photo ref points to, and at most one of each is active. -/
def rtInv (s : RTState) : Prop :=
  (∀ c ∈ s.active, c.kind = ChannelKind.asset → s.channelRef = some c) ∧
  (∀ c ∈ s.active, c.kind = ChannelKind.photo → s.photoChannelRef = some c) ∧
  ((s.active.filter (fun c => c.kind == ChannelKind.asset)).length ≤ 1) ∧
  ((s.active.filter (fun c => c.kind == ChannelKind.photo)).length ≤ 1)

/-- Under the invariant, removing the channels both refs point to empties
the active set: the teardown in `setupRealtimeSubscriptions` and on
unmount removes every listener. -/
theorem cleaned_eq_nil (s : RTState)
    (h1 : ∀ c ∈ s.active, c.kind = ChannelKind.asset → s.channelRef = some c)
    (h2 : ∀ c ∈ s.active, c.kind = ChannelKind.photo → s.photoChannelRef = some c) :
    removeRef (removeRef s.active s.channelRef) s.photoChannelRef = [] := by
  rw [List.eq_nil_iff_forall_not_mem]
  intro c hc
  rw [mem_removeRef] at hc
  obtain ⟨hc1, hcp⟩ := hc
  rw [mem_removeRef] at hc1
  obtain ⟨hmem, hca⟩ := hc1
  cases hk : c.kind with
  | asset => exact absurd rfl (hca c (h1 c hmem hk))
  | photo => exact absurd rfl (hcp c (h2 c hmem hk))

theorem rtInv_setup (s : RTState) (h : rtInv s) : rtInv (setupSubscriptions s) := by
  obtain ⟨h1, h2, _, _⟩ := h
  simp [setupSubscriptions, cleaned_eq_nil s h1 h2, rtInv]

theorem rtInv_unmount (s : RTState) (h : rtInv s) : rtInv (unmountCleanup s) := by
  obtain ⟨h1, h2, _, _⟩ := h
  simp [rtInv, unmountCleanup, cleaned_eq_nil s h1 h2]

theorem rtInv_runOps (ops : List RTOp) : rtInv (runOps ops) := by
  suffices h : ∀ (l : List RTOp) (s : RTState), rtInv s → rtInv (l.foldl rtStep s) by
    refine h ops rtInit ⟨?_, ?_, ?_, ?_⟩ <;> simp [rtInit]
  intro l
  induction l with
  | nil => intro s hs; exact hs
  | cons op rest ih =>
      intro s hs
      cases op with
      | search => exact ih _ (rtInv_setup s hs)
      | unmount => exact ih _ (rtInv_unmount s hs)

/-- Claim C8: along any sequence of searches (each tearing down the prior
subscriptions before opening new ones) and unmount cleanups, at most one
asset channel and at most one photo channel are ever active. -/
theorem claim_C8 (ops : List RTOp) :
    ((runOps ops).active.filter (fun c => c.kind == ChannelKind.asset)).length ≤ 1 ∧
    ((runOps ops).active.filter (fun c => c.kind == ChannelKind.photo)).length ≤ 1 :=
  ⟨(rtInv_runOps ops).2.2.1, (rtInv_runOps ops).2.2.2⟩

/-! ## Claim C9 -/

theorem lookup_updateTabRows_self (td : List (String × List EditableRow)) (tab : String)
    (f : EditableRow → EditableRow) :
    lookupStr (updateTabRows td tab f) tab = some (((lookupStr td tab).getD []).map f) :=
  lookupStr_setEntry_self ..

theorem lookup_updateTabRows_ne (td : List (String × List EditableRow)) (tab tab' : String)
    (f : EditableRow → EditableRow) (h : tab' ≠ tab) :
    lookupStr (updateTabRows td tab f) tab' = lookupStr td tab' :=
  lookupStr_setEntry_ne _ _ _ _ h

/-- Claim C9: when the update issued by a row save fails, the error is
surfaced, the affected row keeps every canonical field, every draft field
and its edited flag, and only its transient saving flag is reset; no
other row, tab, count or photo changes. -/
theorem claim_C9 (s : SiteSearchState) (tab : String) (row : EditableRow) (msg : String) :
    (handleSaveRow (some msg) s tab row).error = some ("Failed to save: " ++ msg)
    ∧ getTabRows (handleSaveRow (some msg) s tab row) tab =
        (getTabRows s tab).map
          (fun r => if r.row.id = row.row.id then { r with _saving := false } else r)
    ∧ (∀ tab', tab' ≠ tab →
        getTabRows (handleSaveRow (some msg) s tab row) tab' = getTabRows s tab')
    ∧ (handleSaveRow (some msg) s tab row).tabCounts = s.tabCounts
    ∧ (handleSaveRow (some msg) s tab row).photos = s.photos := by
  refine ⟨rfl, ?_, ?_, rfl, rfl⟩
  · unfold handleSaveRow getTabRows
    simp only [updateTabRows, lookupStr_setEntry_self, Option.getD_some, List.map_map]
    apply List.map_congr_left
    intro r _
    by_cases h : r.row.id = row.row.id <;> simp [h]
  · intro tab' h
    unfold handleSaveRow getTabRows
    simp only [updateTabRows]
    rw [lookupStr_setEntry_ne _ _ _ _ h, lookupStr_setEntry_ne _ _ _ _ h]

/-- A one-row state for the C9 witness. -/
def er9W : EditableRow :=
  { row := { id := "r1", site_id := "S1", serial := some "OLD" },
    _editing := true, _serial := "NEW" }

/-- The state holding `er9W`, for the C9 witness. -/
def s9W : SiteSearchState :=
  { tabData := [("Enclosure", [er9W])], tabCounts := [("Enclosure", 1)] }

theorem claim_C9_witness :
    getTabRows (handleSaveRow (some "boom") s9W "Enclosure" er9W) "RAN-Active"
      = getTabRows s9W "RAN-Active" :=
  (claim_C9 s9W "Enclosure" er9W "boom").2.2.1 "RAN-Active" (by decide)

/-! ## Claim C1 -/

theorem fieldGet_applyUpdate (r : AssetRow) (u : UpdatePayload) (f : EField) :
    fieldGet (applyUpdate r u) f = some (payloadGet u f) := by
  cases f <;> rfl

theorem payloadGet_payloadOf (er : EditableRow) (f : EField) :
    payloadGet (payloadOf er) f = draftGet er f := by
  cases f <;> rfl

theorem draftGet_draftSet_ne (er : EditableRow) (f g : EField) (v : String) (h : g ≠ f) :
    draftGet (draftSet er f v) g = draftGet er g := by
  cases f <;> cases g <;> first | rfl | exact absurd rfl h

theorem draftGet_applyEdits_not_mem (er : EditableRow) (edits : List (EField × String))
    (f : EField) (h : f ∉ edits.map Prod.fst) :
    draftGet (applyEdits er edits) f = draftGet er f := by
  induction edits generalizing er with
  | nil => rfl
  | cons e rest ih =>
      have hne : f ≠ e.1 := fun hh => h (by simp [hh])
      have h' : f ∉ rest.map Prod.fst := fun hm => h (by simp [hm])
      show draftGet (applyEdits (draftSet er e.1 e.2) rest) f = draftGet er f
      rw [ih _ h']
      exact draftGet_draftSet_ne er e.1 f e.2 hne

theorem draftGet_toEditable (r : AssetRow) (f : EField) :
    draftGet (toEditable r) f = (fieldGet r f).getD "" := by
  cases f <;> rfl

/-- The row used by the C1 counterexample and witness: its serial column
is NULL. -/
def r1W : AssetRow := { id := "r1", site_id := "S1", serial := none, tag := some "T1" }

/-- Claim C1, as stated, is false: editing only the tag of a row whose
serial column is NULL and saving persists the empty string for the
unedited serial, which differs from the value the row had before
editing. -/
theorem claim_C1_counterexample :
    (EField.serial ∉ ([(EField.tag, "T2")].map Prod.fst)) ∧
    fieldGet (applyUpdate r1W (payloadOf (applyEdits (toEditable r1W) [(EField.tag, "T2")])))
        EField.serial ≠ fieldGet r1W EField.serial := by
  decide

/-- Claim C1 (amended): the save persists all seven draft fields in one
update call; the persisted value of an unedited field is its
draft-initialised value — equal to the value the row had before editing
whenever that value was a present string, and the empty string when the
column was NULL; every persisted field equals its draft; and on success
the drafts are promoted into the canonical row with the edited and saving
flags cleared. -/
theorem claim_C1_amended :
    (∀ (r : AssetRow) (edits : List (EField × String)) (f : EField),
        f ∉ edits.map Prod.fst →
        fieldGet (applyUpdate r (payloadOf (applyEdits (toEditable r) edits))) f
          = some ((fieldGet r f).getD ""))
    ∧ (∀ (r : AssetRow) (edits : List (EField × String)) (f : EField),
        fieldGet (applyUpdate r (payloadOf (applyEdits (toEditable r) edits))) f
          = some (draftGet (applyEdits (toEditable r) edits) f))
    ∧ (∀ (s : SiteSearchState) (tab : String) (row : EditableRow),
        getTabRows (handleSaveRow none s tab row) tab =
          (getTabRows s tab).map
            (fun r => if r.row.id = row.row.id then promoteRow r row else r)
        ∧ (∀ r ∈ getTabRows (handleSaveRow none s tab row) tab,
            r.row.id = row.row.id →
              r._editing = false ∧ r._saving = false
              ∧ (∀ f, fieldGet r.row f = some (draftGet row f)))) := by
  refine ⟨?_, ?_, ?_⟩
  · intro r edits f h
    rw [fieldGet_applyUpdate, payloadGet_payloadOf, draftGet_applyEdits_not_mem _ _ _ h,
        draftGet_toEditable]
  · intro r edits f
    rw [fieldGet_applyUpdate, payloadGet_payloadOf]
  · intro s tab row
    have hmap : getTabRows (handleSaveRow none s tab row) tab =
        (getTabRows s tab).map
          (fun r => if r.row.id = row.row.id then promoteRow r row else r) := by
      unfold handleSaveRow getTabRows
      simp only [updateTabRows, lookupStr_setEntry_self, Option.getD_some, List.map_map]
      apply List.map_congr_left
      intro r _
      by_cases h : r.row.id = row.row.id <;> simp [h, promoteRow]
    refine ⟨hmap, ?_⟩
    intro r hr hid
    rw [hmap] at hr
    obtain ⟨a, _, ha⟩ := List.mem_map.mp hr
    by_cases h : a.row.id = row.row.id
    · rw [if_pos h] at ha
      subst ha
      refine ⟨rfl, rfl, ?_⟩
      intro f
      show fieldGet (applyUpdate a.row (payloadOf row)) f = some (draftGet row f)
      rw [fieldGet_applyUpdate, payloadGet_payloadOf]
    · rw [if_neg h] at ha
      subst ha
      exact absurd hid h

theorem claim_C1_witness :
    (EField.status ∉ ([(EField.tag, "T2")].map Prod.fst)) ∧
    fieldGet (applyUpdate r1W (payloadOf (applyEdits (toEditable r1W) [(EField.tag, "T2")])))
        EField.status = some ((fieldGet r1W EField.status).getD "") :=
  ⟨by decide, claim_C1_amended.1 r1W [(EField.tag, "T2")] EField.status (by decide)⟩

/-! ## Claim C4 -/

/-- A row with an existing equipment type, for the C4 counterexample and
witness. -/
def er4W : EditableRow := { row := { id := "r1", site_id := "S1" }, _equipment_type := "ET2" }

/-- A state with populated product-name caches, for the C4 counterexample
and witness. -/
def s4W : SiteSearchState :=
  { tabData := [("Enclosure", [er4W])],
    productNames := [("Enclosure:ET1", ["P1"]), ("Enclosure:ET2", ["P2"])] }

/-- Claim C4, as stated, is false: the synchronous part of the
equipment-type change leaves the cached product-name option lists fully
in place (both the entry for the newly selected type and the one for the
old type survive) instead of clearing them. -/
theorem claim_C4_counterexample :
    (handleEquipmentTypeChangeSync s4W "Enclosure" "r1" "ET1").productNames
        = [("Enclosure:ET1", ["P1"]), ("Enclosure:ET2", ["P2"])]
    ∧ lookupStr (handleEquipmentTypeChangeSync s4W "Enclosure" "r1" "ET1").productNames
        "Enclosure:ET1" ≠ none := by
  decide

/-- Claim C4 (amended): changing the equipment type of a row clears that
row's product-name and product-number drafts (and writes the new type and
the edited flag) synchronously, before any network call resolves, and
leaves every other row and tab untouched; the cached option lists are not
cleared — the caches are left exactly as they were — and the awaited
product-name fetch never changes the tab data. -/
theorem claim_C4_amended (s : SiteSearchState) (tab rowId value : String) :
    getTabRows (handleEquipmentTypeChangeSync s tab rowId value) tab =
      (getTabRows s tab).map
        (fun r => if r.row.id = rowId then
            { r with _equipment_type := value, _product_name := "",
                     _product_number := "", _editing := true }
          else r)
    ∧ (∀ tab', tab' ≠ tab →
        getTabRows (handleEquipmentTypeChangeSync s tab rowId value) tab' = getTabRows s tab')
    ∧ (handleEquipmentTypeChangeSync s tab rowId value).productNames = s.productNames
    ∧ (handleEquipmentTypeChangeSync s tab rowId value).equipmentTypes = s.equipmentTypes
    ∧ (∀ names, (handleEquipmentTypeChange names s tab rowId value).tabData =
        (handleEquipmentTypeChangeSync s tab rowId value).tabData) := by
  refine ⟨?_, ?_, rfl, rfl, ?_⟩
  · unfold handleEquipmentTypeChangeSync getTabRows
    simp only [updateTabRows, lookupStr_setEntry_self, Option.getD_some]
  · intro tab' h
    unfold handleEquipmentTypeChangeSync getTabRows
    simp only [updateTabRows]
    rw [lookupStr_setEntry_ne _ _ _ _ h]
  · intro names
    unfold handleEquipmentTypeChange
    by_cases hv : value = ""
    · simp [hv]
    · simp only [hv, if_neg, ite_false]
      unfold fetchProductNamesApply
      by_cases hc : (lookupStr (handleEquipmentTypeChangeSync s tab rowId value).productNames
          (tab ++ ":" ++ value)).isSome = true <;> simp [hc]

theorem claim_C4_witness :
    getTabRows (handleEquipmentTypeChangeSync s4W "Enclosure" "r1" "ET1") "MW-Active"
      = getTabRows s4W "MW-Active" :=
  (claim_C4_amended s4W "Enclosure" "r1" "ET1").2.1 "MW-Active" (by decide)

/-! ## Claim C5 -/

/-- A row with a pre-existing product-number draft, for the C5
counterexample and witness. -/
def er5W : EditableRow := { row := { id := "r1", site_id := "S1" }, _product_number := "OLD" }

/-- The state holding `er5W`. -/
def s5W : SiteSearchState := { tabData := [("Enclosure", [er5W])] }

/-- Claim C5, as stated, is false: when both catalog lookups error, the
product-number draft keeps its previous non-empty value rather than being
left empty, and no user-visible message is surfaced (the error banner
stays clear). -/
theorem claim_C5_counterexample :
    getTabRows (handleProductNameChange [] true true s5W "Enclosure" "r1" "P9" "ET1") "Enclosure"
      = [{ er5W with _product_name := "P9", _editing := true }]
    ∧ ({ er5W with _product_name := "P9", _editing := true } : EditableRow)._product_number
        = "OLD"
    ∧ (handleProductNameChange [] true true s5W "Enclosure" "r1" "P9" "ET1").error = none := by
  decide

/-- Claim C5 (amended): the auto-fill first queries the catalog filtered
by product name, category and equipment type; when that query errors it
falls back to the product-name-only query; when the fallback also errors
the lookup yields null; a null lookup never sets a user-visible message
and leaves the row's product-number draft unchanged (only the
product-name draft and edited flag are written); rows of other tabs are
untouched. -/
theorem claim_C5_amended (catalog : List CatalogRow) (ferr berr : Bool)
    (s : SiteSearchState) (tab rowId value equipmentType : String) :
    (ferr = false → fetchProductNumber catalog ferr berr value tab equipmentType
        = firstNumber (catalogQuery catalog value tab equipmentType))
    ∧ (ferr = true → berr = false →
        fetchProductNumber catalog ferr berr value tab equipmentType
          = firstNumber (catalogQuery catalog value "" ""))
    ∧ (ferr = true → berr = true →
        fetchProductNumber catalog ferr berr value tab equipmentType = none)
    ∧ (handleProductNameChange catalog ferr berr s tab rowId value equipmentType).error
        = s.error
    ∧ (fetchProductNumber catalog ferr berr value tab equipmentType = none →
        getTabRows (handleProductNameChange catalog ferr berr s tab rowId value equipmentType)
            tab
          = (getTabRows s tab).map
              (fun r => if r.row.id = rowId then
                  { r with _product_name := value, _editing := true } else r))
    ∧ (∀ tab', tab' ≠ tab →
        getTabRows (handleProductNameChange catalog ferr berr s tab rowId value equipmentType)
            tab' = getTabRows s tab') := by
  refine ⟨?_, ?_, ?_, ?_, ?_, ?_⟩
  · intro h; simp [fetchProductNumber, h]
  · intro h1 h2; simp [fetchProductNumber, h1, h2]
  · intro h1 h2; simp [fetchProductNumber, h1, h2]
  · unfold handleProductNameChange
    by_cases hv : value = ""
    · simp [hv]
    · cases hfetch : fetchProductNumber catalog ferr berr value tab equipmentType with
      | none => simp [hv, hfetch]
      | some pn => simp [hv, hfetch]
  · intro hfetch
    unfold handleProductNameChange getTabRows
    by_cases hv : value = ""
    · simp only [hv, ite_true, updateTabRows, lookupStr_setEntry_self, Option.getD_some]
    · simp only [hv, ite_false, hfetch, updateTabRows, lookupStr_setEntry_self,
        Option.getD_some]
  · intro tab' h
    unfold handleProductNameChange getTabRows
    by_cases hv : value = ""
    · simp only [hv, ite_true, updateTabRows]
      rw [lookupStr_setEntry_ne _ _ _ _ h]
    · cases hfetch : fetchProductNumber catalog ferr berr value tab equipmentType with
      | none =>
          simp only [hv, ite_false, hfetch, updateTabRows]
          rw [lookupStr_setEntry_ne _ _ _ _ h]
      | some pn =>
          simp only [hv, ite_false, hfetch, updateTabRows]
          rw [lookupStr_setEntry_ne _ _ _ _ h, lookupStr_setEntry_ne _ _ _ _ h]

theorem claim_C5_witness :
    getTabRows (handleProductNameChange [] true true s5W "Enclosure" "r1" "P9" "ET1")
        "Enclosure"
      = (getTabRows s5W "Enclosure").map
          (fun r => if r.row.id = "r1" then
              { r with _product_name := "P9", _editing := true } else r) :=
  (claim_C5_amended [] true true s5W "Enclosure" "r1" "P9" "ET1").2.2.2.2.1 (by decide)

/-! ## Claim C3 -/

/-- An existing serial-photo metadata record for asset "A", for the C3
counterexample and witness. -/
def p3W : AssetPhoto :=
  { id := "p1", asset_id := "A", asset_table := "enclosure_assets",
    photo_type := "serial", storage_path := "S1/A/serial.jpg", url := some "u1" }

/-- Claim C3, as stated, is false for the AssetDetail drawer's
`uploadPhoto`: re-uploading a serial photo for an asset that already has
one leaves exactly one metadata record for the pair (the upsert updates
in place), not two. -/
theorem claim_C3_counterexample :
    countPhotos [p3W] "A" "serial" = 1
    ∧ countPhotos (uploadPhoto [] [p3W] "p2" "S1" "A" "serial" "new.jpg" "c2" "u2").2
        "A" "serial" = 1
    ∧ countPhotos (uploadPhoto [] [p3W] "p2" "S1" "A" "serial" "new.jpg" "c2" "u2").2
        "A" "serial" ≠ 2 := by
  decide

/-- Claim C3 (amended): the SiteSearch grid upload always inserts a fresh
metadata record — the count for the (asset, type) pair grows by one and
every previous record is still retrievable — and the storage object at
its deterministic path holds the new content; the AssetDetail drawer's
`uploadPhoto` instead upserts on (asset_id, photo_type): when a record
for the pair exists the count is unchanged (the record is updated in
place), while its storage object likewise holds the new content. -/
theorem claim_C3_amended (storage : List (String × String)) (db : List AssetPhoto)
    (newId siteId tab rowId photoType fileName content takenAt : String)
    (userId : Option String) (assetId fileName2 content2 publicUrl newId2 : String) :
    countPhotos
        (handlePhotoUpload storage db newId siteId tab rowId photoType fileName content
          takenAt userId).2 rowId photoType
      = countPhotos db rowId photoType + 1
    ∧ (∀ p ∈ db, p ∈ (handlePhotoUpload storage db newId siteId tab rowId photoType
        fileName content takenAt userId).2)
    ∧ lookupStr
        (handlePhotoUpload storage db newId siteId tab rowId photoType fileName content
          takenAt userId).1
        (photoStoragePath siteId (TAB_TABLE_MAP tab) rowId photoType fileName)
      = some content
    ∧ (db.any (photoMatches assetId photoType) = true →
        countPhotos
            (uploadPhoto storage db newId2 siteId assetId photoType fileName2 content2
              publicUrl).2 assetId photoType
          = countPhotos db assetId photoType)
    ∧ lookupStr
        (uploadPhoto storage db newId2 siteId assetId photoType fileName2 content2
          publicUrl).1
        (uploadPhotoPath siteId assetId photoType (fileExt fileName2))
      = some content2 := by
  refine ⟨?_, ?_, ?_, ?_, ?_⟩
  · simp [handlePhotoUpload, countPhotos, List.countP_append, List.countP_cons, photoMatches]
  · intro p hp
    simp [handlePhotoUpload, hp]
  · simp only [handlePhotoUpload]
    exact lookupStr_setEntry_self ..
  · intro h
    simp only [uploadPhoto, upsertPhoto, h, if_true]
    unfold countPhotos
    rw [List.countP_map]
    apply List.countP_congr
    intro p hp
    cases hpm : photoMatches assetId photoType p with
    | true =>
        have hpm' := hpm
        simp only [photoMatches, Bool.and_eq_true, beq_iff_eq] at hpm'
        simp [Function.comp, photoMatches, hpm'.1, hpm'.2]
    | false => simp [Function.comp, hpm]
  · simp only [uploadPhoto]
    exact lookupStr_setEntry_self ..

theorem claim_C3_witness :
    ([p3W].any (photoMatches "A" "serial") = true) ∧
    countPhotos (uploadPhoto [] [p3W] "p9" "S1" "A" "serial" "new.jpg" "c9" "u9").2
        "A" "serial" = countPhotos [p3W] "A" "serial" :=
  ⟨by decide,
   (claim_C3_amended [] [p3W] "p0" "Enclosure" "Enclosure" "r0" "serial" "f.jpg" "c0" "t0"
      none "A" "new.jpg" "c9" "u9" "p9").2.2.2.1 (by decide)⟩

/-! ## Claim C7 -/

theorem getTabRows_refreshTabData_self (db : String → List AssetRow) (s : SiteSearchState)
    (tab site : String) :
    getTabRows (refreshTabData db s tab site) tab
      = (queryTable (db (TAB_TABLE_MAP tab)) site).map toEditable := by
  unfold refreshTabData getTabRows
  simp only [lookupStr_setEntry_self, Option.getD_some]

theorem getTabRows_refreshTabData_ne (db : String → List AssetRow) (s : SiteSearchState)
    (tab site tab' : String) (h : tab' ≠ tab) :
    getTabRows (refreshTabData db s tab site) tab' = getTabRows s tab' := by
  unfold refreshTabData getTabRows
  simp only
  rw [lookupStr_setEntry_ne _ _ _ _ h]

theorem mem_queryTable_site (rows : List AssetRow) (site : String) (r : AssetRow)
    (h : r ∈ queryTable rows site) : r.site_id = site := by
  unfold queryTable at h
  rw [List.mem_insertionSort, List.mem_filter] at h
  exact eq_of_beq h.2

theorem foldl_assetEventStep_ne (db : String → List AssetRow)
    (subSite table rowSite : String) (h : rowSite ≠ subSite) :
    ∀ (l : List String) (st : SiteSearchState),
      l.foldl (assetEventStep db subSite table rowSite) st = st := by
  intro l
  induction l with
  | nil => intro st; rfl
  | cons t rest ih =>
      intro st
      have hstep : assetEventStep db subSite table rowSite st t = st := by
        unfold assetEventStep
        rw [if_neg (fun hc => h hc.2)]
      rw [List.foldl_cons, hstep, ih st]

theorem foldl_assetEventStep_mem (db : String → List AssetRow)
    (subSite table rowSite : String) (s : SiteSearchState) :
    ∀ (l : List String) (st : SiteSearchState),
      (∀ tab er, er ∈ getTabRows st tab → er ∈ getTabRows s tab ∨ er.row.site_id = subSite) →
      ∀ tab er, er ∈ getTabRows (l.foldl (assetEventStep db subSite table rowSite) st) tab →
        er ∈ getTabRows s tab ∨ er.row.site_id = subSite := by
  intro l
  induction l with
  | nil => intro st hst; exact hst
  | cons t rest ih =>
      intro st hst
      rw [List.foldl_cons]
      apply ih
      intro tab er her
      unfold assetEventStep at her
      by_cases hcond : TAB_TABLE_MAP t = table ∧ rowSite = subSite
      · rw [if_pos hcond] at her
        by_cases htab : tab = t
        · subst htab
          rw [getTabRows_refreshTabData_self] at her
          obtain ⟨r, hr, hrr⟩ := List.mem_map.mp her
          right
          rw [← hrr]
          exact mem_queryTable_site _ _ _ hr
        · rw [getTabRows_refreshTabData_ne _ _ _ _ _ htab] at her
          exact hst tab er her
      · rw [if_neg hcond] at her
        exact hst tab er her

/-- Claim C7: an inbound change notification for a row whose site differs
from the site the subscriptions were opened for never alters the state
(the per-table filter drops it); and after any delivered notification,
every displayed row either was already displayed or belongs to the
subscribed site — every notification-triggered re-fetch queries only rows
of the searched site. -/
theorem claim_C7 (db : String → List AssetRow) (s : SiteSearchState)
    (subSite table rowSite : String) :
    (rowSite ≠ subSite → processAssetEvent db s subSite table rowSite = s)
    ∧ (∀ tab er, er ∈ getTabRows (processAssetEvent db s subSite table rowSite) tab →
        er ∈ getTabRows s tab ∨ er.row.site_id = subSite) := by
  constructor
  · intro h
    exact foldl_assetEventStep_ne db subSite table rowSite h TABS s
  · intro tab er her
    exact foldl_assetEventStep_mem db subSite table rowSite s TABS s
      (fun _ _ hm => Or.inl hm) tab er her

/-- A displayed state subscribed to site "S1", for the C7 witness. -/
def s7W : SiteSearchState :=
  { siteId := "S1", hasSearched := true,
    tabData := [("Enclosure", [{ row := { id := "r1", site_id := "S1" } }])],
    tabCounts := [("Enclosure", 1)] }

theorem claim_C7_witness :
    processAssetEvent (fun _ => []) s7W "S1" "enclosure_assets" "S2" = s7W :=
  (claim_C7 (fun _ => []) s7W "S1" "enclosure_assets" "S2").1 (by decide)

/-! ## Claim C2 -/

theorem loadPhotos_tabData (photoDb : List AssetPhoto) (sign : String → Option String)
    (s : SiteSearchState) (assets : List (String × String)) :
    (loadPhotosForAssets photoDb sign s assets).1.tabData = s.tabData := by
  unfold loadPhotosForAssets
  by_cases h : assets = [] <;> simp [h]

theorem loadPhotos_tabCounts (photoDb : List AssetPhoto) (sign : String → Option String)
    (s : SiteSearchState) (assets : List (String × String)) :
    (loadPhotosForAssets photoDb sign s assets).1.tabCounts = s.tabCounts := by
  unfold loadPhotosForAssets
  by_cases h : assets = [] <;> simp [h]

theorem loadPhotos_siteId (photoDb : List AssetPhoto) (sign : String → Option String)
    (s : SiteSearchState) (assets : List (String × String)) :
    (loadPhotosForAssets photoDb sign s assets).1.siteId = s.siteId := by
  unfold loadPhotosForAssets
  by_cases h : assets = [] <;> simp [h]

theorem lookupStr_map_self {α : Type} (l : List String) (g : String → α) (k : String)
    (hk : k ∈ l) : lookupStr (l.map (fun t => (t, g t))) k = some (g k) := by
  induction l with
  | nil => cases hk
  | cons t rest ih =>
      by_cases h : t = k
      · subst h
        simp [lookupStr]
      · have hmem : k ∈ rest := by
          rcases List.mem_cons.mp hk with hk' | hk'
          · exact absurd hk'.symm h
          · exact hk'
        simp [lookupStr, h, ih hmem]

theorem map_row_toEditable (l : List AssetRow) :
    (l.map toEditable).map EditableRow.row = l := by
  rw [List.map_map]
  have h : (EditableRow.row ∘ toEditable) = id := funext (fun _ => rfl)
  rw [h, List.map_id]

/-- Claim C2: for a non-empty (trimmed) search, each of the five tabs
displays exactly the fetched rows whose site reference equals the
searched identifier — a permutation of the filtered table sorted in
descending `date_text` order — its count equals the number of those rows,
and the searched identifier is stored. -/
theorem claim_C2 (db : String → List AssetRow) (photoDb : List AssetPhoto)
    (sign : String → Option String) (s : SiteSearchState) (tab : String)
    (h : jsTrim s.searchQuery ≠ "") (htab : tab ∈ TABS) :
    ((getTabRows (handleSearch db photoDb sign s).1 tab).map EditableRow.row).Perm
        ((db (TAB_TABLE_MAP tab)).filter (fun r => r.site_id == jsTrim s.searchQuery))
    ∧ List.Sorted dateGe
        ((getTabRows (handleSearch db photoDb sign s).1 tab).map EditableRow.row)
    ∧ lookupStr (handleSearch db photoDb sign s).1.tabCounts tab
        = some (((db (TAB_TABLE_MAP tab)).filter
            (fun r => r.site_id == jsTrim s.searchQuery)).length)
    ∧ (handleSearch db photoDb sign s).1.siteId = jsTrim s.searchQuery := by
  have hdata : (handleSearch db photoDb sign s).1.tabData
      = TABS.map (fun t =>
          (t, (queryTable (db (TAB_TABLE_MAP t)) (jsTrim s.searchQuery)).map toEditable)) := by
    unfold handleSearch
    simp only [h, ite_false]
    rw [loadPhotos_tabData]
    simp [List.map_map, Function.comp]
  have hcounts : (handleSearch db photoDb sign s).1.tabCounts
      = TABS.map (fun t =>
          (t, (queryTable (db (TAB_TABLE_MAP t)) (jsTrim s.searchQuery)).length)) := by
    unfold handleSearch
    simp only [h, ite_false]
    rw [loadPhotos_tabCounts]
    simp [List.map_map, Function.comp]
  have hrows : getTabRows (handleSearch db photoDb sign s).1 tab
      = (queryTable (db (TAB_TABLE_MAP tab)) (jsTrim s.searchQuery)).map toEditable := by
    unfold getTabRows
    rw [hdata,
      lookupStr_map_self TABS
        (fun t => (queryTable (db (TAB_TABLE_MAP t)) (jsTrim s.searchQuery)).map toEditable)
        tab htab]
    rfl
  have hperm : (queryTable (db (TAB_TABLE_MAP tab)) (jsTrim s.searchQuery)).Perm
      ((db (TAB_TABLE_MAP tab)).filter (fun r => r.site_id == jsTrim s.searchQuery)) :=
    List.perm_insertionSort dateGe _
  refine ⟨?_, ?_, ?_, ?_⟩
  · rw [hrows, map_row_toEditable]
    exact hperm
  · rw [hrows, map_row_toEditable]
    exact List.sorted_insertionSort dateGe _
  · rw [hcounts,
      lookupStr_map_self TABS
        (fun t => (queryTable (db (TAB_TABLE_MAP t)) (jsTrim s.searchQuery)).length) tab htab,
      hperm.length_eq]
  · unfold handleSearch
    simp only [h, ite_false]
    rw [loadPhotos_siteId]

/-- Three rows across two sites, for the C2 witness. -/
def db2W : String → List AssetRow := fun t =>
  if t = "enclosure_assets" then
    [{ id := "a", site_id := "S1", date_text := some "2" },
     { id := "b", site_id := "S2", date_text := some "5" },
     { id := "c", site_id := "S1", date_text := some "9" }]
  else []

/-- A state about to search for "S1" (with surrounding whitespace), for
the C2 witness. -/
def s2W : SiteSearchState := { searchQuery := " S1 " }

theorem claim_C2_witness :
    (jsTrim s2W.searchQuery ≠ "" ∧ "Enclosure" ∈ TABS) ∧
    (((getTabRows (handleSearch db2W [] (fun _ => none) s2W).1 "Enclosure").map
          EditableRow.row).Perm
        ((db2W (TAB_TABLE_MAP "Enclosure")).filter
          (fun r => r.site_id == jsTrim s2W.searchQuery))
      ∧ List.Sorted dateGe
          ((getTabRows (handleSearch db2W [] (fun _ => none) s2W).1 "Enclosure").map
            EditableRow.row)
      ∧ lookupStr (handleSearch db2W [] (fun _ => none) s2W).1.tabCounts "Enclosure"
          = some (((db2W (TAB_TABLE_MAP "Enclosure")).filter
              (fun r => r.site_id == jsTrim s2W.searchQuery)).length)
      ∧ (handleSearch db2W [] (fun _ => none) s2W).1.siteId = jsTrim s2W.searchQuery) :=
  ⟨⟨by decide, by decide⟩,
   claim_C2 db2W [] (fun _ => none) s2W "Enclosure" (by decide) (by decide)⟩
